import Mathlib

/-!
Verification development for the Air_intake visual-inspection repository.

The repository is a small PLC-coupled inspection system:
- app.py: binary OK/NG classification loop against a Mitsubishi PLC
  (trigger coil M10, result register D11), with a self-paced test mode
  when the PLC connection fails at startup.
- detector.py: bitmask encoding of detected class ids into a single
  result value (run_detection).
- plc_sender.py: a PLCController class wrapping word-unit reads/writes
  with per-operation exception absorption.
- camera.py: frame acquisition (opaque here; a frame is modelled as the
  list of labels / class ids the detector reports on it).

External collaborators (YOLO model, OpenCV, the camera and the PLC
transport) are modelled as oracles: each cycle is driven by an
environment record saying what the trigger read returned, whether a
frame was available and what was detected on it, which key was pressed,
and whether the PLC writes failed. All definitions below are translated
from the Python source, statement for statement.
-/

/-! ## String helpers: Python str.lower and the substring test (x in y) -/

/-- Python str.lower restricted to ASCII, applied characterwise (the
labels in this repository are ASCII class names). -/
def pyLower (s : String) : String :=
  String.mk (s.data.map Char.toLower)

/-- Python substring containment: needle in hay, on character lists. -/
def substrIn (needle : List Char) : List Char → Bool
  | [] => needle.isEmpty
  | c :: t => needle.isPrefixOf (c :: t) || substrIn needle t

/-- app.py line 118: the Python test whether the two-character string ng
occurs inside obj.lower(). -/
def containsNg (s : String) : Bool :=
  substrIn ['n', 'g'] (s.data.map Char.toLower)

/-- app.py line 119: the Python test whether the two-character string ok
occurs inside obj.lower(). -/
def containsOk (s : String) : Bool :=
  substrIn ['o', 'k'] (s.data.map Char.toLower)

/-! ## detect_once classification (app.py lines 82 to 126)

The YOLO call is an oracle: a frame is represented by the ordered list
of class-name labels detected on it. detection_result starts at 1, is
reassigned per box by the colour branch, and is then overwritten by the
final ng/ok determination; detected_objects is replaced by the
placeholder list when no detections occurred, so the final if-block
always runs. -/

def classifyValue (labels : List String) : Nat :=
  let detection_result : Nat := 1
  let detection_result :=
    labels.foldl (fun _ name => if pyLower name = "ok" then 1 else 0) detection_result
  let detection_result := if labels.isEmpty then 0 else detection_result
  let detected_objects := if labels.isEmpty then ["No objects detected"] else labels
  let ng_detected := detected_objects.any containsNg
  let ok_detected := detected_objects.any containsOk
  if ng_detected then 0 else if ok_detected then 1 else 0

/-- The final determination of detect_once, characterised over the raw
label list: any ng-containing label forces 0, else any ok-containing
label gives 1, else 0. The zero-detection case goes through the
placeholder string, which contains neither ng nor ok. -/
theorem classifyValue_eq (labels : List String) :
    classifyValue labels =
      if labels.any containsNg then 0 else if labels.any containsOk then 1 else 0 := by
  cases labels with
  | nil => decide
  | cons a t => rfl

/-! ## detector.py: run_detection (bitmask encoding) -/

/-- detector.py lines 20 to 22: result_value accumulated by
result_value = result_value OR (1 shifted left by (cap - 1)). -/
def encodeVal (caps : List Nat) : Nat :=
  caps.foldl (fun r cap => r ||| (1 <<< (cap - 1))) 0

/-- detector.py lines 7 to 25, value part: each box contributes
cls + 1 to the set named missing (modelled by dedup of the mapped
list), then the set is folded into a single integer with one bit per
position. The drawing side effects have no bearing on the value. -/
def run_detection (cls_ids : List Nat) : Nat :=
  encodeVal ((cls_ids.map (fun c => c + 1)).dedup)

theorem foldl_or_acc (l : List Nat) (r : Nat) :
    l.foldl (fun a cap => a ||| (1 <<< (cap - 1))) r
      = r ||| l.foldl (fun a cap => a ||| (1 <<< (cap - 1))) 0 := by
  induction l generalizing r with
  | nil => simp
  | cons a t ih =>
    simp only [List.foldl_cons]
    rw [ih (r ||| (1 <<< (a - 1))), ih (0 ||| (1 <<< (a - 1))), Nat.zero_or, Nat.or_assoc]

theorem encodeVal_testBit (l : List Nat) (i : Nat) :
    (encodeVal l).testBit i = l.any (fun cap => cap - 1 == i) := by
  induction l with
  | nil => simp [encodeVal]
  | cons a t ih =>
    have h : encodeVal (a :: t) = (1 <<< (a - 1)) ||| encodeVal t := by
      simp only [encodeVal, List.foldl_cons]
      rw [foldl_or_acc, Nat.zero_or]
    rw [h, Nat.testBit_or, ih, Nat.one_shiftLeft, Nat.testBit_two_pow]
    simp only [List.any_cons]
    congr 1

/-- Bit i of the encoded value is set exactly when class id i was
detected: position cls + 1 occupies bit cls. -/
theorem run_detection_testBit (l : List Nat) (i : Nat) :
    (run_detection l).testBit i = true ↔ i ∈ l := by
  rw [run_detection, encodeVal_testBit, List.any_eq_true]
  constructor
  · rintro ⟨cap, hmem, hcap⟩
    rw [List.mem_dedup, List.mem_map] at hmem
    obtain ⟨c, hc, rfl⟩ := hmem
    have hci : c = i := by simpa using hcap
    exact hci ▸ hc
  · intro hi
    refine ⟨i + 1, ?_, by simp⟩
    rw [List.mem_dedup, List.mem_map]
    exact ⟨i, hi, rfl⟩

/-- The encoded value depends only on the set of detected class ids:
the Python set named missing erases both order and duplicates. -/
theorem run_detection_pure (l₁ l₂ : List Nat) (h : l₁.toFinset = l₂.toFinset) :
    run_detection l₁ = run_detection l₂ := by
  apply Nat.eq_of_testBit_eq
  intro i
  have hm : (i ∈ l₁) ↔ (i ∈ l₂) := by
    rw [← List.mem_toFinset, h, List.mem_toFinset]
  have h1 := run_detection_testBit l₁ i
  have h2 := run_detection_testBit l₂ i
  cases hb1 : (run_detection l₁).testBit i with
  | true => exact ((h2.mpr (hm.mp (h1.mp hb1))).symm)
  | false =>
    cases hb2 : (run_detection l₂).testBit i with
    | true => exact absurd (hm.mpr (h2.mp hb2)) (fun hmm => by simp [h1.mpr hmm] at hb1)
    | false => rfl

/-- Decoding a register through a fixed position ordering, as the spec
describes for the lists 1,3,5 and 2,4,6: bit index k of the register
names the k-th entry of the ordering. -/
def decodeByOrder (order : List Nat) (r : Nat) : List Nat :=
  (order.enum.filter (fun pr => r.testBit pr.1)).map (fun pr => pr.2)

/-! ## app.py: controller link and control loop

State after startup (app.py lines 23 to 34): plc_connected is set by the
single connection attempt and never assigned again; mc is None exactly
when the attempt failed, so the guards (not plc_connected or mc is None)
collapse to the plc_connected flag. The run counters (lines 163 to 165)
live in the same record. -/

structure LoopState where
  plc_connected : Bool
  detection_count : Nat
  ok_count : Nat
  ng_count : Nat
deriving DecidableEq

/-- app.py lines 23 to 34: the startup connection attempt is the only
assignment of plc_connected; counters start at zero. -/
def startup (connectOk : Bool) : LoopState :=
  { plc_connected := connectOk, detection_count := 0, ok_count := 0, ng_count := 0 }

/-- Outcome of the underlying batchread_bitunits call inside
read_trigger: either a bit value, or a raised I/O exception. -/
inductive TrigOutcome
  | val (b : Bool)
  | ioErr
deriving DecidableEq

/-- Observable controller/console actions of one cycle. readTrig,
resetTrig and writeResult are attempted PLC transport operations;
echoResult is the test-mode console echo of the would-be register
value; errLog is a logged per-operation error message. -/
inductive Eff
  | readTrig
  | resetTrig
  | writeResult (v : Nat)
  | echoResult (v : Nat)
  | errLog
deriving DecidableEq

/-- app.py lines 37 to 46. Disconnected: return True with no controller
I/O. Connected: attempt the coil read; a raised exception is caught,
logged, and turned into False. -/
def read_trigger (st : LoopState) (io : TrigOutcome) : Bool × LoopState × List Eff :=
  if !st.plc_connected then (true, st, [])
  else
    match io with
    | TrigOutcome.val b => (b, st, [Eff.readTrig])
    | TrigOutcome.ioErr => (false, st, [Eff.readTrig, Eff.errLog])

/-- app.py lines 48 to 56. Disconnected: return with no controller I/O.
Connected: attempt the coil write; a raised exception is caught and
logged. -/
def reset_trigger (st : LoopState) (ioFails : Bool) : LoopState × List Eff :=
  if !st.plc_connected then (st, [])
  else (st, Eff.resetTrig :: (if ioFails then [Eff.errLog] else []))

/-- app.py lines 58 to 70. Disconnected: echo the would-be D11 value,
no controller I/O. Connected: attempt the word write; a raised
exception is caught and logged. -/
def write_result (st : LoopState) (v : Nat) (ioFails : Bool) : LoopState × List Eff :=
  if !st.plc_connected then (st, [Eff.echoResult v])
  else (st, Eff.writeResult v :: (if ioFails then [Eff.errLog] else []))

/-- Return value of detect_once (app.py lines 73 to 150). -/
inductive DetectOutcome
  | noFrame
  | quit
  | manualTrigger
  | success
deriving DecidableEq

/-- app.py lines 73 to 150. A missing frame returns no_frame before any
write. Otherwise the classification is computed, the result is sent via
write_result, and in test mode the displayed window reads one key:
q (code 113) quits, space (code 32) is a manual trigger, anything else
is success. Connected mode skips the display and returns success. -/
def detect_once (st : LoopState) (frame : Option (List String)) (key : Nat)
    (writeFails : Bool) : DetectOutcome × LoopState × List Eff :=
  match frame with
  | none => (DetectOutcome.noFrame, st, [])
  | some labels =>
    let v := classifyValue labels
    let w := write_result st v writeFails
    if w.1.plc_connected then (DetectOutcome.success, w.1, w.2)
    else if key = 113 then (DetectOutcome.quit, w.1, w.2)
    else if key = 32 then (DetectOutcome.manualTrigger, w.1, w.2)
    else (DetectOutcome.success, w.1, w.2)

/-- Everything outside the loop body that can vary between iterations:
the coil read outcome, the captured frame (as its detected labels), the
pressed key, and whether the reset and result writes raise. -/
structure CycleEnv where
  trig : TrigOutcome
  frame : Option (List String)
  key : Nat
  resetFails : Bool
  writeFails : Bool
deriving DecidableEq

/-- One iteration of the while loop, app.py lines 167 to 202. Returns
the new state, whether the loop breaks, and the effects of the
iteration. Connected mode polls the trigger; test mode always triggers.
After detect_once: quit breaks immediately; no_frame skips the counter
increment; then connected mode resets the trigger while test mode
breaks once detection_count reaches 20. -/
def loopStep (st : LoopState) (env : CycleEnv) : LoopState × Bool × List Eff :=
  let tr := if st.plc_connected then read_trigger st env.trig else (true, st, [])
  let trigger_detected := tr.1
  let st0 := tr.2.1
  let e1 := tr.2.2
  if trigger_detected then
    let d := detect_once st0 env.frame env.key env.writeFails
    let res := d.1
    let st1 := d.2.1
    let e2 := d.2.2
    if res = DetectOutcome.quit then (st1, true, e1 ++ e2)
    else
      let st2 := if res = DetectOutcome.noFrame then st1
                 else { st1 with detection_count := st1.detection_count + 1 }
      if st2.plc_connected then
        let rr := reset_trigger st2 env.resetFails
        (rr.1, false, e1 ++ e2 ++ rr.2)
      else
        if 20 ≤ st2.detection_count then (st2, true, e1 ++ e2)
        else (st2, false, e1 ++ e2)
  else (st0, false, e1)

/-- The while loop run against a finite trace of per-iteration
environments; the Bool records whether it broke out of the loop. -/
def runLoop : LoopState → List CycleEnv → LoopState × Bool
  | st, [] => (st, false)
  | st, e :: rest =>
    let r := loopStep st e
    if r.2.1 then (r.1, true) else runLoop r.1 rest

/-! ## Observation helpers over effect lists -/

def isResetEff : Eff → Bool
  | Eff.resetTrig => true
  | _ => false

def isWriteEff : Eff → Bool
  | Eff.writeResult _ => true
  | _ => false

/-- Controller transport operations, as opposed to console output. -/
def isCtrlEff : Eff → Bool
  | Eff.readTrig => true
  | Eff.resetTrig => true
  | Eff.writeResult _ => true
  | _ => false

def hasResetEff (l : List Eff) : Bool := l.any isResetEff

def hasWriteEff (l : List Eff) : Bool := l.any isWriteEff

/-- The value carried by the first attempted result-register write. -/
def writtenValue : List Eff → Option Nat
  | [] => none
  | Eff.writeResult v :: _ => some v
  | _ :: rest => writtenValue rest

/-! ## plc_sender.py: PLCController

Each operation wraps one transport call in try/except; the except arm
logs and substitutes a plain return value, so no exception escapes.
Modelled with Except as the exception carrier: the transport may return
Except.error, the wrapped operation never does. -/

/-- Outcome of an underlying word-unit read. -/
inductive WordOutcome
  | val (w : Nat)
  | ioErr
deriving DecidableEq

def batchread_wordunits (io : WordOutcome) : Except String Nat :=
  match io with
  | WordOutcome.val w => Except.ok w
  | WordOutcome.ioErr => Except.error "plc read failed"

def batchwrite_wordunits (fails : Bool) : Except String Unit :=
  if fails then Except.error "plc write failed" else Except.ok ()

def isOkE {α : Type} : Except String α → Bool
  | Except.ok _ => true
  | Except.error _ => false

namespace PLCController

/-- plc_sender.py lines 14 to 20: try the read and compare to 1; the
except arm returns False. -/
def read_trigger (io : WordOutcome) : Except String Bool :=
  match batchread_wordunits io with
  | Except.ok d => Except.ok (d == 1)
  | Except.error _ => Except.ok false

/-- plc_sender.py lines 22 to 27: try the zero write; the except arm
only logs. -/
def reset_trigger (fails : Bool) : Except String Unit :=
  match batchwrite_wordunits fails with
  | Except.ok _ => Except.ok ()
  | Except.error _ => Except.ok ()

/-- plc_sender.py lines 29 to 34: try the value write; the except arm
only logs. -/
def write_result (fails : Bool) (v : Nat) : Except String Unit :=
  match batchwrite_wordunits fails with
  | Except.ok _ => Except.ok ()
  | Except.error _ => Except.ok ()

end PLCController

/-! ## Claim theorems -/

/-- C1: In Binary Classification mode the classification over the full
label list of a cycle, labels read case-insensitively with the matching
test of the source (substring containment after lowering, app.py lines
118 to 119), follows the precedence: any ng label gives NG, else any ok
label gives OK, else NG, and zero detections give NG (the else branch:
no label of the empty cycle, nor the inserted placeholder, contains ng
or ok). The single result register receives 1 for OK and 0 for NG: the
D11 write issued by detect_once carries exactly classifyValue. -/
theorem binary_mode_precedence (labels : List String) (t o n key : Nat) (wf : Bool) :
    classifyValue labels =
      (if labels.any containsNg then 0 else if labels.any containsOk then 1 else 0)
  ∧ classifyValue [] = 0
  ∧ writtenValue (detect_once ⟨true, t, o, n⟩ (some labels) key wf).2.2
      = some (classifyValue labels) :=
  ⟨classifyValue_eq labels, by decide, rfl⟩

/-- C10: the binary classification tests substring containment on
lowercased labels, not exact equality: the general characterisation
holds for every label list, and the label look, which equals neither
ok nor ng, is classified OK (value 1) because it contains ok. -/
theorem substring_containment_semantics (labels : List String) :
    classifyValue labels =
      (if labels.any containsNg then 0 else if labels.any containsOk then 1 else 0)
  ∧ containsNg "look" = false
  ∧ containsOk "look" = true
  ∧ "look" ≠ "ok"
  ∧ "look" ≠ "ng"
  ∧ classifyValue ["look"] = 1 :=
  ⟨classifyValue_eq labels, by decide, by decide, by decide, by decide, by decide⟩

/-- C2 counterexample: the code has no pair of parity-split registers.
run_detection is the whole encoding and it returns the single value 9
for class ids 0 and 3 (positions 1 and 4): bit 0 and bit 3 of one
register, not register A = 1 and register B = 2 as claimed; 9 equals
neither claimed register value, and the set bit 3 is outside the
three-bit range the claimed per-register scheme can ever produce. -/
theorem bitmask_pair_cex :
    run_detection [0, 3] = 9
  ∧ 9 ≠ 1
  ∧ 9 ≠ 2
  ∧ Nat.testBit (run_detection [0, 3]) 3 = true := by decide

/-- C2 amended: each detected class id c denotes position p = c + 1 and
sets bit p - 1 = c of the single result register returned by
run_detection; in particular class ids 0 and 3 (positions 1 and 4)
yield the single register value 9 (bits 0 and 3 set). -/
theorem bitmask_single_register (l : List Nat) (i : Nat) :
    ((run_detection l).testBit i = true ↔ i ∈ l)
  ∧ run_detection [0, 3] = 9 :=
  ⟨run_detection_testBit l i, by decide⟩

/-- C5 counterexample: class id 6 yields position 7, outside 1 to 6.
run_detection neither rejects nor clamps it: it silently returns 64,
with bit 6 set, outside the six-bit range (bits 0 to 5) that positions
1 to 6 occupy. -/
theorem bitmask_silent_overflow_cex :
    run_detection [6] = 64
  ∧ Nat.testBit (run_detection [6]) 6 = true := by decide

/-- C5 amended: run_detection performs no range check at all: every
single detected class id c, in range or not, silently sets bit c,
returning 2 to the power c; for c at least 6 the returned value exceeds
63, the largest value the six intended positions can encode. -/
theorem bitmask_no_range_check (c : Nat) :
    run_detection [c] = 2 ^ c ∧ (6 ≤ c → 63 < run_detection [c]) := by
  have h : run_detection [c] = 2 ^ c := by
    simp [run_detection, encodeVal, Nat.one_shiftLeft]
  refine ⟨h, fun hc => ?_⟩
  rw [h]
  calc 63 < 2 ^ 6 := by decide
    _ ≤ 2 ^ c := Nat.pow_le_pow_right (by decide) hc

theorem bitmask_no_range_check_w : 63 < run_detection [6] :=
  (bitmask_no_range_check 6).2 (by decide)

/-- C6 counterexample: decoding through the fixed ordering 1,3,5 does
not reproduce the detected positions. Class id 2 gives detected
position set containing exactly 3, the code encodes it as the single
register value 4 (bit 2), and decoding 4 through the ordering 1,3,5
names position 5, not position 3. -/
theorem bitmask_order_decode_cex :
    ([2].map (fun c => c + 1)).dedup = [3]
  ∧ run_detection [2] = 4
  ∧ decodeByOrder [1, 3, 5] (run_detection [2]) = [5]
  ∧ [5] ≠ [3] := by decide

/-- C6 amended: the encoded register value is a pure function of the
set of detected class ids, independent of detection order and of
duplicates, and decoding bit p of the single register as position
p + 1 reproduces exactly the detected position set. -/
theorem bitmask_pure_roundtrip (l₁ l₂ : List Nat) (p : Nat)
    (h : l₁.toFinset = l₂.toFinset) :
    run_detection l₁ = run_detection l₂
  ∧ ((run_detection l₁).testBit p = true ↔ p + 1 ∈ l₁.map (fun c => c + 1)) := by
  refine ⟨run_detection_pure l₁ l₂ h, ?_⟩
  rw [run_detection_testBit]
  simp

theorem bitmask_pure_roundtrip_w :
    run_detection [3, 0] = run_detection [0, 3, 3]
  ∧ ((run_detection [3, 0]).testBit 3 = true ↔ 3 + 1 ∈ [3, 0].map (fun c => c + 1)) :=
  bitmask_pure_roundtrip [3, 0] [0, 3, 3] 3 (by decide)

/-- A connected state with some completed inspections. -/
def stConn : LoopState := ⟨true, 5, 0, 0⟩

/-- A connected-mode iteration in which the trigger reads true but the
camera returns no frame. -/
def envNoFrame : CycleEnv := ⟨TrigOutcome.val true, none, 0, false, false⟩

/-- C3 counterexample: after a capture failure the trigger reset is
still attempted. With the trigger read true and no frame available,
detect_once returns no_frame, no result write happens, yet the
iteration ends with an attempted coil reset: the reset follows the
fall-through at app.py lines 186 to 192, which runs reset_trigger for
every non-quit outcome, no_frame included. -/
theorem reset_after_capture_failure_cex :
    (detect_once stConn envNoFrame.frame envNoFrame.key envNoFrame.writeFails).1
      = DetectOutcome.noFrame
  ∧ (loopStep stConn envNoFrame).2.2 = [Eff.readTrig, Eff.resetTrig]
  ∧ hasResetEff (loopStep stConn envNoFrame).2.2 = true
  ∧ hasWriteEff (loopStep stConn envNoFrame).2.2 = false := by decide

/-- C3 amended: in Connected mode the trigger reset is attempted if and
only if the trigger read returned true, regardless of whether the cycle
completed through the result write; in particular it is also attempted
after a capture failure. (The quit outcome, the only path that skips
the reset, is unreachable while connected.) -/
theorem reset_iff_trigger_detected (t o n : Nat) (env : CycleEnv) :
    hasResetEff (loopStep ⟨true, t, o, n⟩ env).2.2
      = (read_trigger ⟨true, t, o, n⟩ env.trig).1 := by
  obtain ⟨trig, frame, key, rf, wf⟩ := env
  cases trig with
  | ioErr => rfl
  | val b =>
    cases b with
    | false => rfl
    | true =>
      cases frame with
      | none => cases rf <;> rfl
      | some ls => cases rf <;> cases wf <;> rfl

/-- C7: a trigger read that raises while Connected is absorbed:
read_trigger returns False, the iteration performs no detection, no
write and no reset, does not break, and leaves the whole state, the
connectivity flag and all counters included, unchanged. -/
theorem trigger_error_skips_cycle (t o n : Nat) (frame : Option (List String))
    (key : Nat) (rf wf : Bool) :
    loopStep ⟨true, t, o, n⟩ ⟨TrigOutcome.ioErr, frame, key, rf, wf⟩
      = (⟨true, t, o, n⟩, false, [Eff.readTrig, Eff.errLog]) := rfl

/-- C8: whenever connectivity is Disconnected, read_trigger returns
True with no effects at all (the trigger is treated as satisfied
without controller I/O), reset_trigger returns without writing the
coil, and write_result performs no controller transport operation,
emitting only the console echo of the would-be register value. -/
theorem disconnected_noop_io (t o n : Nat) (io : TrigOutcome) (rf wf : Bool) (v : Nat) :
    read_trigger ⟨false, t, o, n⟩ io = (true, ⟨false, t, o, n⟩, [])
  ∧ reset_trigger ⟨false, t, o, n⟩ rf = (⟨false, t, o, n⟩, [])
  ∧ write_result ⟨false, t, o, n⟩ v wf = (⟨false, t, o, n⟩, [Eff.echoResult v])
  ∧ [Eff.echoResult v].any isCtrlEff = false :=
  ⟨rfl, rfl, rfl, rfl⟩

/-- read_trigger never mutates the program state. -/
theorem read_trigger_state (st : LoopState) (io : TrigOutcome) :
    (read_trigger st io).2.1 = st := by
  unfold read_trigger
  split
  · rfl
  · cases io <;> rfl

/-- reset_trigger never mutates the program state. -/
theorem reset_trigger_state (st : LoopState) (rf : Bool) :
    (reset_trigger st rf).1 = st := by
  unfold reset_trigger
  split <;> rfl

/-- write_result never mutates the program state. -/
theorem write_result_state (st : LoopState) (v : Nat) (wf : Bool) :
    (write_result st v wf).1 = st := by
  unfold write_result
  split <;> rfl

/-- detect_once never mutates the program state. -/
theorem detect_once_state (st : LoopState) (frame : Option (List String))
    (key : Nat) (wf : Bool) :
    (detect_once st frame key wf).2.1 = st := by
  cases frame with
  | none => rfl
  | some ls =>
    obtain ⟨pc, t, o, n⟩ := st
    cases pc with
    | true => cases wf <;> rfl
    | false =>
      simp only [detect_once, write_result]
      split_ifs <;> rfl

/-- One loop iteration never changes the connectivity flag. -/
theorem loopStep_plc (st : LoopState) (env : CycleEnv) :
    (loopStep st env).1.plc_connected = st.plc_connected := by
  simp only [loopStep]
  split_ifs <;>
    simp_all [read_trigger_state, detect_once_state, reset_trigger_state, apply_ite]

/-- The whole loop never changes the connectivity flag. -/
theorem runLoop_plc (st : LoopState) (envs : List CycleEnv) :
    (runLoop st envs).1.plc_connected = st.plc_connected := by
  induction envs generalizing st with
  | nil => rfl
  | cons e rest ih =>
    show (if (loopStep st e).2.1 then ((loopStep st e).1, true)
          else runLoop (loopStep st e).1 rest).1.plc_connected = _
    by_cases hb : (loopStep st e).2.1 = true
    · rw [if_pos hb]
      exact loopStep_plc st e
    · rw [if_neg hb, ih ((loopStep st e).1), loopStep_plc]

/-- A fallback-mode iteration in which a frame is captured and a single
object labelled ok is detected; no key is pressed. -/
def goodEnv : CycleEnv := ⟨TrigOutcome.val true, some ["ok"], 0, false, false⟩

/-- C4 (demonstration of the divergence): in fallback connectivity the
loop does stop after exactly 20 completed cycles, but the terminal
counters are detection_count = 20 with ok_count = ng_count = 0, because
app.py initialises and prints ok_count and ng_count without ever
incrementing them; hence total = ok + ng fails (20 is not 0 + 0). Run
on a trace of 25 all-OK cycles, the loop breaks with 5 cycles left. -/
theorem fallback_termination_counters :
    runLoop (startup false) (List.replicate 25 goodEnv)
      = (⟨false, 20, 0, 0⟩, true)
  ∧ ¬((20 : Nat) = 0 + 0) := ⟨by decide, by decide⟩

/-- C9: no controller-link operation propagates an exception for a
per-operation I/O failure, and the connectivity flag is assigned only
by the startup connection attempt. In app.py every operation returns
its state argument unchanged (there is no assignment to plc_connected
anywhere past line 29), a raised trigger read is absorbed into the
return value False, and the loop preserves the flag across any
iteration trace; in plc_sender.py every PLCController operation
returns Except.ok even when the underlying transport raises. -/
theorem link_no_raise_sticky_connectivity :
    (∀ b, (startup b).plc_connected = b)
  ∧ (∀ st io, (read_trigger st io).2.1 = st)
  ∧ (∀ t o n, (read_trigger ⟨true, t, o, n⟩ TrigOutcome.ioErr).1 = false)
  ∧ (∀ st rf, (reset_trigger st rf).1 = st)
  ∧ (∀ st v wf, (write_result st v wf).1 = st)
  ∧ (∀ st frame key wf, (detect_once st frame key wf).2.1 = st)
  ∧ (∀ st env, (loopStep st env).1.plc_connected = st.plc_connected)
  ∧ (∀ st envs, (runLoop st envs).1.plc_connected = st.plc_connected)
  ∧ (∀ io, isOkE (PLCController.read_trigger io) = true)
  ∧ (∀ rf, isOkE (PLCController.reset_trigger rf) = true)
  ∧ (∀ wf v, isOkE (PLCController.write_result wf v) = true) := by
  refine ⟨fun b => rfl, read_trigger_state, ?_, reset_trigger_state, write_result_state,
    detect_once_state, loopStep_plc, runLoop_plc, ?_, ?_, ?_⟩
  · intro t o n
    rfl
  · intro io
    cases io <;> rfl
  · intro rf
    cases rf <;> rfl
  · intro wf v
    cases wf <;> rfl
